import Mathlib

/-!
Verification of the Market Data Acquisition Layer of the dhan-fastapi-bridge
repository against its natural-language specification.

The Python sources are shallowly embedded:
* prices and clock values are exact rationals (the code's float arithmetic is
  modelled exactly; the claims under check only involve values where the float
  rounding is irrelevant),
* the global mutable caches (`_MASTER_CACHE`, `_SCAN_CACHE`, the `DhanAuth`
  token state) become explicit state records threaded through the functions,
* network calls become explicit parameters carrying the upstream response, and
  each function additionally reports how many upstream requests it issued,
* `raise HTTPException(...)` becomes `Except HttpException`.
-/

namespace DhanBridge

/-- A raised FastAPI `HTTPException`: status code plus detail string. -/
structure HttpException where
  status_code : Nat
  detail : String
deriving DecidableEq, Repr

/-! ### Python string primitives

The CSV and mode strings the code manipulates are ASCII; `str.strip()`,
`str.upper()`, `str.lower()` and the `in` substring operator are modelled
directly on the character list (Lean's built-in `String.trim`/`toUpper` are
not kernel-computable, which the concrete witnesses need). -/

/-- Python `str.strip()`: drop whitespace from both ends. -/
def pyStrip (s : String) : String :=
  ⟨((s.data.dropWhile Char.isWhitespace).reverse.dropWhile Char.isWhitespace).reverse⟩

/-- Uppercase one ASCII character. -/
def upperChar (c : Char) : Char :=
  if 'a' ≤ c ∧ c ≤ 'z' then Char.ofNat (c.toNat - 32) else c

/-- Python `str.upper()` on the ASCII range. -/
def pyUpper (s : String) : String := ⟨s.data.map upperChar⟩

/-- Lowercase one ASCII character. -/
def lowerChar (c : Char) : Char :=
  if 'A' ≤ c ∧ c ≤ 'Z' then Char.ofNat (c.toNat + 32) else c

/-- Python `str.lower()` on the ASCII range. -/
def pyLower (s : String) : String := ⟨s.data.map lowerChar⟩

/-- Does `p` lead the list `s`? -/
def leadMatch : List Char → List Char → Bool
  | [], _ => true
  | _ :: _, [] => false
  | p :: ps, c :: cs => p = c && leadMatch ps cs

/-- Does `pat` occur as a contiguous sublist of `s`? -/
def occursIn (pat : List Char) : List Char → Bool
  | [] => pat.isEmpty
  | c :: cs => leadMatch pat (c :: cs) || occursIn pat cs

/-- Python `pat in s` on strings. -/
def strContains (s pat : String) : Bool := occursIn pat.data s.data

/-! ## Quotes and the per-entry classification (src/main.py, scan_all lines 378-444)

`ohlc.get("open") or 0` maps both a missing and a zero value to `0`; optional
numeric fields are `Option ℚ` and `qval` performs that defaulting.  Python's
rounding of the output values to two decimals (`round(x, 2)`) is elided: the
claims compare exact values that are fixed points of that rounding. -/

/-- One upstream quote record (`data.<quote_key>.<sid>` fields used by the scan). -/
structure Quote where
  last_price : Option ℚ
  opn : Option ℚ
  high : Option ℚ
  low : Option ℚ
  close : Option ℚ
  volume : Option ℚ
  last_trade_time : String
deriving DecidableEq, Repr

/-- Python `x.get(k) or 0`: missing values default to `0`. -/
def qval (x : Option ℚ) : ℚ := x.getD 0

/-- One element of the scan's `results` list (output rounding elided). -/
structure ScanResult where
  symbol : String
  bias : String
  confidence : ℤ
  last_price : ℚ
  pct_vs_open : ℚ
  range_pos : ℚ
  volume : ℚ
  last_trade_time : String
deriving DecidableEq, Repr

/-- The per-entry classification of `scan_all` (src/main.py lines 378-444) with
the staleness filter disabled (`only_today=False`), i.e. the path the quoted
claim is about: skip on falsy `last_price` or falsy `day_open`, compute
`pct_vs_open`, `range_pos`, then the bias/confidence lookup.  `none` is a
skipped entry. -/
def scanEntry (mode : String) (sym : String) (q : Quote) : Option ScanResult :=
  match q.last_price with
  | none => none
  | some ltp =>
    if ltp = 0 then none
    else
      let day_open := qval q.opn
      let day_high := qval q.high
      let day_low := qval q.low
      let vol := qval q.volume
      if day_open = 0 then none
      else
        let pct := (ltp - day_open) / day_open * 100
        let range_pos : ℚ :=
          if day_high ≠ 0 ∧ day_low ≠ 0 ∧ day_high ≠ day_low then
            max 0 (min 1 ((ltp - day_low) / (day_high - day_low)))
          else 1/2
        let bullish := decide (pct ≥ 6/5)
        let bearish := decide (pct ≤ -(6/5))
        let bc : String × ℤ :=
          if pyLower mode = "btst" then
            if bullish ∧ range_pos ≥ 7/10 then ("BULLISH", 85)
            else if bearish ∧ range_pos ≤ 3/10 then ("BEARISH", 82)
            else ("NEUTRAL", 65)
          else
            if bullish then ("BULLISH", 80)
            else if bearish then ("BEARISH", 78)
            else ("NEUTRAL", 65)
        some ⟨sym, bc.1, bc.2, ltp, pct, range_pos, vol, q.last_trade_time⟩

/-- Modelled from the spec: the claimed classification reference price, "either
the previous close or the day's opening price depending on the configured
mode"; written from the claim's words, to be compared with `scanEntry`. -/
def pctChangeSpec (mode : String) (lastPrice prevClose dayOpen : ℚ) : ℚ :=
  if mode = "previous-close" then (lastPrice - prevClose) / prevClose * 100
  else (lastPrice - dayOpen) / dayOpen * 100

/-- Concrete quote of the claim's example: lastPrice 105, day open 100; its
previous close (`ohlc.close`) is 50, which the code never reads. -/
def qC1 : Quote :=
  ⟨some 105, some 100, some 0, some 0, some 50, some 0, "N/A"⟩

/-! ## Strided / sequential windowing (src/main.py, scan_all lines 349-361) -/

/-- The sampling loop
`while len(indices) < max_symbols and i < universe_count: append i; i += stride`. -/
def strideGo (n stride w : Nat) (i : Nat) (acc : List Nat) : List Nat :=
  if h : acc.length < w ∧ i < n then
    strideGo n stride w (i + stride) (acc ++ [i])
  else acc
termination_by w - acc.length
decreasing_by simp only [List.length_append, List.length_cons, List.length_nil]; omega

/-- Indices selected in spread (strided) mode:
`stride = max(1, universe_count // max_symbols)`,
`start = spread_shift % max(1, universe_count)`, then the sampling loop. -/
def stridedIndices (n w o : Nat) : List Nat :=
  strideGo n (max 1 (n / w)) w (o % max 1 n) []

/-- Closed form used in the proofs: up to `m` terms of the arithmetic
progression starting at `i` with step `stride`, stopping at the first term
`≥ n` (exactly the loop's stopping rule). -/
def apTake (n stride : Nat) : Nat → Nat → List Nat
  | 0, _ => []
  | m + 1, i => if i < n then i :: apTake n stride m (i + stride) else []

/-! ## Quote gateway: batching and upstream error mapping
(src/main.py, `dhan_quote_batch` lines 260-280 and the batch loop 367-372) -/

/-- The raw upstream HTTP reply to one `/marketfeed/quote` POST: status code and
the decoded `data.<quote_key>` map (security id -> quote).  Python keys the map
by `str(sid)`; the string wrapper is immaterial and keys stay `Nat` here. -/
structure BatchResponse where
  status : Nat
  data : List (Nat × Quote)

/-- Status handling of `dhan_quote_batch`: 429 becomes the rate-limit
exception with the retry hint, any other non-200 status becomes a 502, a 200
returns the data map. -/
def handleQuoteResponse (r : BatchResponse) : Except HttpException (List (Nat × Quote)) :=
  if r.status = 429 then
    .error ⟨429, "Dhan rate limit (429). Retry after ~20–30 seconds."⟩
  else if r.status = 200 then .ok r.data
  else .error ⟨502, "Dhan quote API failed (" ++ toString r.status ++ ")"⟩

/-- Key list of an association-list map. -/
def keys (m : List (Nat × Quote)) : List Nat := m.map Prod.fst

/-- Python `dict.update`: entries of `m` whose key reappears in `upd` are
overridden, the rest are kept; as an association list (CPython's insertion-order
bookkeeping is immaterial to the denoted map). -/
def dictUpdate (m upd : List (Nat × Quote)) : List (Nat × Quote) :=
  m.filter (fun p => ((upd.lookup p.1).isNone : Bool)) ++ upd

/-- `for i in range(0, len(ids), batch_size): chunk = ids[i:i+batch_size]`:
the consecutive batches, each of at most `b` elements.  Python's `range`
rejects a zero step; `b = 0` is mapped to no batches and every theorem
assumes `1 ≤ b` (the endpoint constrains `batch_size ≥ 20`). -/
def batches : List α → Nat → List (List α)
  | [], _ => []
  | _ :: _, 0 => []
  | x :: xs, b + 1 => (x :: xs).take (b + 1) :: batches ((x :: xs).drop (b + 1)) (b + 1)
termination_by ids _ => ids.length
decreasing_by simp only [List.length_drop, List.length_cons]; omega

/-- The batch loop of `scan_all`: one upstream request per chunk, results
merged with `dict.update`; a raised exception aborts the loop.  The second
component counts upstream requests issued.  (The inter-batch `time.sleep(0.25)`
throttle is a pure delay and is not modelled.) -/
def fetchLoop (up : List Nat → BatchResponse) :
    List (List Nat) → List (Nat × Quote) → Except HttpException (List (Nat × Quote)) × Nat
  | [], acc => (.ok acc, 0)
  | c :: cs, acc =>
    match handleQuoteResponse (up c) with
    | .error e => (.error e, 1)
    | .ok d =>
      let r := fetchLoop up cs (dictUpdate acc d)
      (r.1, r.2 + 1)

/-- Batched quote fetch: split `ids` into batches of at most `b` and run the
batch loop. -/
def fetchQuotes (up : List Nat → BatchResponse) (ids : List Nat) (b : Nat) :
    Except HttpException (List (Nat × Quote)) × Nat :=
  fetchLoop up (batches ids b) []

/-! ## Scan cache (src/main.py, scan_all lines 335-341 and 467-475)

`_SCAN_CACHE` is a dict keyed by the parameter-derived string; an entry stores
the insertion clock value `t` and the response dict.  A cached entry younger
than `SCAN_CACHE_TTL` is served after re-slicing `top_results` to `limit`
(`resp.get("top_results", [])[:limit]`, which inserts the key when absent —
error bodies have no `top_results`).  The body outcome (success with a result
list, or a raised `HTTPException`) is a parameter here; the uncaught-generic-
exception path (which neither caches nor raises an `HTTPException`) is outside
the claims and not modelled. -/

/-- Scan parameters that form the cache key. -/
structure ScanParams where
  limit : Nat
  max_symbols : Nat
  batch_size : Nat
  only_today : Bool
  spread : Bool
  spread_shift : Nat
  mode : String
deriving DecidableEq, Repr

/-- `cache_key = f"{limit}:{max_symbols}:{batch_size}:{only_today}:{spread}:{spread_shift}:{mode}"`
(rendering of booleans differs from Python only in capitalisation, which does
not affect any claim: the key is a deterministic injective image of the
parameters either way). -/
def cacheKey (p : ScanParams) : String :=
  String.intercalate ":"
    [toString p.limit, toString p.max_symbols, toString p.batch_size,
     toString p.only_today, toString p.spread, toString p.spread_shift, p.mode]

/-- A scan response body.  `reason` is `some _` exactly on the error dicts
`{"status": "error", "reason": ..., "timestamp": ...}`; `top_results` is `none`
when the dict has no such key (error bodies), mirroring Python's key-presence
distinction.  The remaining metadata fields of the success dict are constants
of the computation that produced it and are carried by `timestamp` alone. -/
structure ScanResp where
  status : String
  reason : Option String
  timestamp : String
  top_results : Option (List ScanResult)
deriving DecidableEq, Repr

/-- One `_SCAN_CACHE` entry: `{"t": now, "resp": resp}`. -/
structure CacheEntry where
  t : ℚ
  resp : ScanResp
deriving DecidableEq, Repr

/-- `SCAN_CACHE_TTL = 25` seconds. -/
def SCAN_CACHE_TTL : ℚ := 25

/-- The scan cache dict. -/
def ScanCache : Type := String → Option CacheEntry

/-- `_SCAN_CACHE[key] = entry`. -/
def cacheInsert (c : ScanCache) (k : String) (e : CacheEntry) : ScanCache :=
  fun x => if x = k then some e else c x

/-- Outcome of the scan body (everything between the cache check and the cache
store): a success with the sorted result list and the response timestamp, or a
raised `HTTPException` with the timestamp of its error dict. -/
inductive ScanBody where
  | success (timestamp : String) (results : List ScanResult)
  | httpError (he : HttpException) (timestamp : String)

/-- Serving a cached response:
`resp["top_results"] = resp.get("top_results", [])[:limit]; return resp`. -/
def serveCached (r : ScanResp) (limit : Nat) : ScanResp :=
  { r with top_results := some ((r.top_results.getD []).take limit) }

/-- The non-cached path of `scan_all`: run the body, build the response dict
(success stores `top_results = results[:limit]`), store it in the cache under
`key` with timestamp `now`, return it (re-raising the `HTTPException` on the
error path).  `bodyCalls` is the number of upstream quote requests the body
issued; the triple returned is (client outcome, new cache, upstream calls). -/
def scanRunBody (cache : ScanCache) (now : ℚ) (p : ScanParams) (body : ScanBody)
    (bodyCalls : Nat) : Except HttpException ScanResp × ScanCache × Nat :=
  match body with
  | .success ts results =>
    let resp : ScanResp := ⟨"success", none, ts, some (results.take p.limit)⟩
    (.ok resp, cacheInsert cache (cacheKey p) ⟨now, resp⟩, bodyCalls)
  | .httpError he ts =>
    let err : ScanResp := ⟨"error", some he.detail, ts, none⟩
    (.error he, cacheInsert cache (cacheKey p) ⟨now, err⟩, bodyCalls)

/-- `scan_all` around the scan cache: serve a cache entry younger than the TTL
(with the `top_results` re-slice) without touching the upstream, otherwise run
the body and cache its outcome.  (In Python the re-slice mutates the shared
cached dict in place; with an unchanged `limit` the re-slice is idempotent, so
keeping the stored entry unchanged is observationally identical.) -/
def scan_all_cached (cache : ScanCache) (now : ℚ) (p : ScanParams) (body : ScanBody)
    (bodyCalls : Nat) : Except HttpException ScanResp × ScanCache × Nat :=
  match cache (cacheKey p) with
  | some e =>
    if now - e.t < SCAN_CACHE_TTL then (.ok (serveCached e.resp p.limit), cache, 0)
    else scanRunBody cache now p body bodyCalls
  | none => scanRunBody cache now p body bodyCalls

/-! ## Token manager (src/dhan_auth.py, `DhanAuth.get_token` / `_refresh_token`) -/

/-- The mutable token state of a `DhanAuth` instance: `access_token` (`None`
until one is obtained) and `expires_at`. -/
structure AuthState where
  access_token : Option String
  expires_at : ℚ
deriving DecidableEq, Repr

/-- Python truthiness of `self.access_token`: `None` and `""` are falsy. -/
def tokenTruthy : Option String → Bool
  | none => false
  | some s => !(s = "")

/-- Outcome of the `POST /token/refresh` call: a new token with its
`expires_in` TTL, or any raised exception (transport error or non-2xx via
`raise_for_status`). -/
inductive RefreshOutcome where
  | ok (access_token : String) (expires_in : ℚ)
  | fail
deriving DecidableEq, Repr

/-- `DhanAuth._refresh_token`: on success store the new token with expiry
`now + ttl` (persisting is the identity on this state); on failure raise
`RuntimeError("No valid Dhan access token!")` only if no token is held,
otherwise fall back to the held token, state unchanged. -/
def refresh_token (st : AuthState) (now : ℚ) (r : RefreshOutcome) :
    Except String (Option String × AuthState) :=
  match r with
  | .ok tok ttl => .ok (some tok, ⟨some tok, now + ttl⟩)
  | .fail =>
    if tokenTruthy st.access_token then .ok (st.access_token, st)
    else .error "No valid Dhan access token!"

/-- `DhanAuth.get_token`: return the held token while it is truthy and
unexpired, otherwise refresh. -/
def get_token (st : AuthState) (now : ℚ) (r : RefreshOutcome) :
    Except String (Option String × AuthState) :=
  if tokenTruthy st.access_token ∧ now < st.expires_at then .ok (st.access_token, st)
  else refresh_token st now r

/-! ## Universe builders (src/main.py `build_nse_eq_universe` lines 104-137,
src/scripts/build_universe.py `build` lines 21-49) -/

/-- One row of the master CSV, with the columns the builders read
(`csv.DictReader` yields strings; a missing column reads as `""`). -/
structure MasterRow where
  EXCH_ID : String
  SEGMENT : String
  SERIES : String
  SECURITY_ID : String
  SYMBOL_NAME : String
  DISPLAY_NAME : String
  INSTRUMENT : String
deriving DecidableEq, Repr

/-- The exclusion list of `build_nse_eq_universe`. -/
def badNames : List String :=
  ["ETF", "MUTUAL", "MF", "BOND", "GSEC", "GOVT", "SDL", "NCD", "DEBENTURE"]

/-- Digit run to a number. -/
def digitsToNat (cs : List Char) : Nat :=
  cs.foldl (fun acc c => acc * 10 + (c.toNat - 48)) 0

/-- Split a character list at the first `'.'`. -/
def splitDot : List Char → List Char × Option (List Char)
  | [] => ([], none)
  | '.' :: t => ([], some t)
  | c :: t =>
    let r := splitDot t
    (c :: r.1, r.2)

/-- Models Python `int(float(s))` on plain decimal literals
(`[+-]digits[.digits]`): truncation towards zero drops the fractional part, so
the value is the sign times the integer part.  Exponent and special float
syntax never appears in `SECURITY_ID` columns and is mapped to a parse
failure. -/
def int_float (s : String) : Option Int :=
  let cs := s.data
  let signed : Int × List Char :=
    match cs with
    | '-' :: t => (-1, t)
    | '+' :: t => (1, t)
    | _ => (1, cs)
  let wf := splitDot signed.2
  match wf.2 with
  | none =>
    if wf.1 ≠ [] ∧ wf.1.all Char.isDigit then some (signed.1 * digitsToNat wf.1)
    else none
  | some fr =>
    if (wf.1 ≠ [] ∨ fr ≠ []) ∧ wf.1.all Char.isDigit ∧ fr.all Char.isDigit then
      some (signed.1 * digitsToNat wf.1)
    else none

/-- An entry of the NSE-EQ universe. -/
structure UniverseEntry where
  security_id : Int
  symbol_name : String
  display_name : String
deriving DecidableEq, Repr

/-- The per-row filter-and-convert step of `build_nse_eq_universe` (everything
in the loop body up to the de-duplication): `none` when the row is skipped. -/
def rowEntry (r : MasterRow) : Option UniverseEntry :=
  let exch := pyUpper (pyStrip r.EXCH_ID)
  let seg := pyUpper (pyStrip r.SEGMENT)
  let series := pyUpper (pyStrip r.SERIES)
  if exch = "NSE" ∧ seg = "E" ∧ series = "EQ" then
    let sid_raw := pyStrip r.SECURITY_ID
    let sym := pyStrip r.SYMBOL_NAME
    let disp := pyStrip r.DISPLAY_NAME
    let instr := pyUpper (pyStrip r.INSTRUMENT)
    if sid_raw ≠ "" ∧ sym ≠ "" then
      let name_blob := pyUpper (sym ++ " " ++ disp ++ " " ++ instr)
      if badNames.any (fun bad => strContains name_blob bad) then none
      else
        match int_float sid_raw with
        | none => none
        | some sid => some ⟨sid, sym, if disp = "" then sym else disp⟩
    else none
  else none

/-- The accumulation loop of `build_nse_eq_universe`: de-duplicate by
`(security_id, symbol_name)` with the `seen` set, keeping first occurrences in
row order. -/
def buildLoop : List MasterRow → List (Int × String) → List UniverseEntry
  | [], _ => []
  | r :: rs, seen =>
    match rowEntry r with
    | none => buildLoop rs seen
    | some e =>
      if (e.security_id, e.symbol_name) ∈ seen then buildLoop rs seen
      else e :: buildLoop rs ((e.security_id, e.symbol_name) :: seen)

/-- `build_nse_eq_universe` as a pure function of the master rows (the
`_MASTER_CACHE` gating around it is modelled separately below). -/
def build_nse_eq_universe (rows : List MasterRow) : List UniverseEntry :=
  buildLoop rows []

/-- First-occurrence de-duplication by `(security_id, symbol_name)`, used to
state the first-seen-order property. -/
def dedupFirst : List UniverseEntry → List (Int × String) → List UniverseEntry
  | [], _ => []
  | e :: es, seen =>
    if (e.security_id, e.symbol_name) ∈ seen then dedupFirst es seen
    else e :: dedupFirst es ((e.security_id, e.symbol_name) :: seen)

/-- An entry written by `scripts/build_universe.py`. -/
structure ScriptEntry where
  security_id : Int
  symbol : String
  display_name : String
  series : String
deriving DecidableEq, Repr

/-- The loop of `scripts/build_universe.py build`: filter on the raw
(stripped, not upper-cased) fields, de-duplicate by the RAW id string paired
with the symbol, then convert `int(float(sid))` — which is uncaught there, so
an unparsable id aborts the build (`none`). -/
def buildScriptLoop : List MasterRow → List (String × String) → Option (List ScriptEntry)
  | [], _ => some []
  | r :: rs, seen =>
    let exch := pyStrip r.EXCH_ID
    let seg := pyStrip r.SEGMENT
    let series := pyStrip r.SERIES
    let sid := pyStrip r.SECURITY_ID
    let symbol := pyStrip r.SYMBOL_NAME
    let name := pyStrip r.DISPLAY_NAME
    if exch = "NSE" ∧ seg = "E" ∧ series = "EQ" ∧ sid ≠ "" ∧ symbol ≠ "" then
      if (sid, symbol) ∈ seen then buildScriptLoop rs seen
      else
        match int_float sid with
        | none => none
        | some n =>
          (buildScriptLoop rs ((sid, symbol) :: seen)).map
            (fun l => ⟨n, symbol, if name = "" then symbol else name, series⟩ :: l)
    else buildScriptLoop rs seen

/-- `scripts/build_universe.py build`, as a pure function of the parsed rows. -/
def buildScript (rows : List MasterRow) : Option (List ScriptEntry) :=
  buildScriptLoop rows []

/-! ## Master CSV cache and the cached universe
(src/main.py `load_master_rows` lines 73-86, `build_nse_eq_universe` 88-100) -/

/-- `_MASTER_CACHE`: download clock, cached rows, cached derived universe. -/
structure MasterCache where
  fetched_at : ℚ
  rows : Option (List MasterRow)
  nse_eq_universe : Option (List UniverseEntry)
deriving Repr

/-- `MASTER_CACHE_TTL = 6 * 60 * 60` seconds. -/
def MASTER_CACHE_TTL : ℚ := 6 * 60 * 60

/-- The upstream reply to the master-CSV GET: HTTP status and parsed rows. -/
structure FetchOutcome where
  status : Nat
  rows : List MasterRow

/-- The download-and-store tail of `load_master_rows`: non-200 raises a 502
and leaves the cache untouched; otherwise the rows are stored, `fetched_at`
is set to `now` and the derived universe cache is invalidated.  One upstream
request is issued either way. -/
def fetchMaster (now : ℚ) (dl : FetchOutcome) :
    Except HttpException (List MasterRow × MasterCache) × Nat :=
  if dl.status ≠ 200 then (.error ⟨502, "Failed to fetch Dhan master CSV"⟩, 1)
  else (.ok (dl.rows, ⟨now, some dl.rows, none⟩), 1)

/-- `load_master_rows(force)`: serve the cached rows when not forced, present
and younger than the TTL; otherwise download. -/
def load_master_rows (st : MasterCache) (force : Bool) (now : ℚ) (dl : FetchOutcome) :
    Except HttpException (List MasterRow × MasterCache) × Nat :=
  match st.rows with
  | some rows =>
    if ¬ force = true ∧ now - st.fetched_at < MASTER_CACHE_TTL then (.ok (rows, st), 0)
    else fetchMaster now dl
  | none => fetchMaster now dl

/-- `build_nse_eq_universe` after the optional forced reload: return the
cached universe if present, else load rows (cached or downloaded), derive the
universe and cache it.  `dls` carries download counts already issued. -/
def build_universe_core (st : MasterCache) (now : ℚ) (dl : FetchOutcome) (dls : Nat) :
    Except HttpException (List UniverseEntry × MasterCache) × Nat :=
  match st.nse_eq_universe with
  | some u => (.ok (u, st), dls)
  | none =>
    match load_master_rows st false now dl with
    | (.error e, k) => (.error e, dls + k)
    | (.ok (rows, st'), k) =>
      let u := build_nse_eq_universe rows
      (.ok (u, { st' with nse_eq_universe := some u }), dls + k)

/-- The full cached `build_nse_eq_universe(force_refresh)`:
`if force_refresh: load_master_rows(force=True)` (which invalidates the
derived cache), then the core above. -/
def build_universe_cached (st : MasterCache) (force_refresh : Bool) (now : ℚ)
    (dl : FetchOutcome) : Except HttpException (List UniverseEntry × MasterCache) × Nat :=
  if force_refresh then
    match load_master_rows st true now dl with
    | (.error e, k) => (.error e, k)
    | (.ok (_, st'), k) => build_universe_core st' now dl k
  else build_universe_core st now dl 0

/-- A sequence of `/scan/all`-style calls to the cached universe builder
(each with its own clock value and would-be download result), accumulating the
total number of master-CSV downloads. -/
def scanSeq : MasterCache → List (ℚ × FetchOutcome) → MasterCache × Nat
  | st, [] => (st, 0)
  | st, (t, dl) :: rest =>
    match build_universe_cached st false t dl with
    | (.ok (_, st'), k) =>
      let r := scanSeq st' rest
      (r.1, k + r.2)
    | (.error _, k) =>
      let r := scanSeq st rest
      (r.1, k + r.2)

/-! ## Concrete inputs used by the witnesses and counterexamples -/

/-- Upstream stub for the batching witness: always HTTP 200, echoing each
requested id with the example quote. -/
def upW : List Nat → BatchResponse := fun c => ⟨200, c.map (fun i => (i, qC1))⟩

/-- A 502 failure outcome (upstream error), as raised by `dhan_quote_batch`. -/
def heC5 : HttpException := ⟨502, "Dhan quote API failed (503)"⟩

/-- A concrete scan-parameter set. -/
def pC5 : ScanParams := ⟨10, 20, 20, false, false, 1, "morning"⟩

/-- The 429 rate-limit failure raised by `dhan_quote_batch`. -/
def heC6 : HttpException := ⟨429, "Dhan rate limit (429). Retry after ~20–30 seconds."⟩

/-- The default scan-parameter set of `/scan/all`. -/
def pC6 : ScanParams := ⟨30, 50, 50, true, true, 0, "btst"⟩

/-- A qualifying NSE/E/EQ master row with `SECURITY_ID = "1"`. -/
def rowC9a : MasterRow := ⟨"NSE", "E", "EQ", "1", "AAA", "ADISP", "ES"⟩

/-- The same instrument with its id written `"1.0"` (the float form
`int(float(sid))` exists to absorb). -/
def rowC9b : MasterRow := ⟨"NSE", "E", "EQ", "1.0", "AAA", "BDISP", "ES"⟩

/-- A master-cache state whose derived universe cache is populated and whose
dataset is far older than the 6-hour TTL at the witness clock values. -/
def stC10 : MasterCache := ⟨0, some [rowC9a], some [⟨1, "AAA", "ADISP"⟩]⟩

/-! ## Theorems -/

/-! ### C2: strided sampling -/

theorem apTake_nil (n stride m i : Nat) (h : ¬ i < n) : apTake n stride m i = [] := by
  cases m <;> simp [apTake, h]

theorem strideGo_eq (n stride w : Nat) :
    ∀ (m : Nat) (i : Nat) (acc : List Nat), w - acc.length ≤ m →
      strideGo n stride w i acc = acc ++ apTake n stride (w - acc.length) i := by
  intro m
  induction m with
  | zero =>
    intro i acc hm
    have h0 : w - acc.length = 0 := Nat.le_zero.mp hm
    have hnc : ¬ (acc.length < w ∧ i < n) := by omega
    rw [strideGo, dif_neg hnc, h0, apTake, List.append_nil]
  | succ m ih =>
    intro i acc hm
    rw [strideGo]
    by_cases hc : acc.length < w ∧ i < n
    · rw [dif_pos hc, ih (i + stride) (acc ++ [i]) (by simp; omega)]
      have hw : w - acc.length = (w - (acc ++ [i]).length) + 1 := by simp; omega
      rw [hw, apTake, if_pos hc.2]
      simp
    · rw [dif_neg hc]
      rcases Decidable.not_and_iff_or_not.mp hc with h1 | h2
      · have h0 : w - acc.length = 0 := by omega
        rw [h0, apTake, List.append_nil]
      · rw [apTake_nil n stride _ i h2, List.append_nil]

theorem stridedIndices_eq (n w o : Nat) :
    stridedIndices n w o = apTake n (max 1 (n / w)) w (o % max 1 n) := by
  unfold stridedIndices
  rw [strideGo_eq n (max 1 (n / w)) w w (o % max 1 n) [] (by simp)]
  simp

theorem apTake_length_le (n stride : Nat) : ∀ (m i : Nat), (apTake n stride m i).length ≤ m := by
  intro m
  induction m with
  | zero => intro i; simp [apTake]
  | succ m ih =>
    intro i
    rw [apTake]
    split
    · simpa using ih (i + stride)
    · simp

theorem apTake_get? (n stride : Nat) :
    ∀ (m i k : Nat), k < (apTake n stride m i).length →
      (apTake n stride m i).get? k = some (i + k * stride) := by
  intro m
  induction m with
  | zero => intro i k hk; simp [apTake] at hk
  | succ m ih =>
    intro i k hk
    by_cases hc : i < n
    · have hl : apTake n stride (m + 1) i = i :: apTake n stride m (i + stride) := by
        rw [apTake, if_pos hc]
      rw [hl] at hk ⊢
      cases k with
      | zero => simp
      | succ k =>
        rw [List.get?_cons_succ, ih (i + stride) k (by simpa using hk)]
        congr 1
        ring_nf
    · rw [apTake_nil n stride _ i hc] at hk
      simp at hk

theorem apTake_mem_lt (n stride : Nat) : ∀ (m i : Nat), ∀ x ∈ apTake n stride m i, x < n := by
  intro m
  induction m with
  | zero => intro i x hx; simp [apTake] at hx
  | succ m ih =>
    intro i x hx
    rw [apTake] at hx
    split at hx
    · rcases List.mem_cons.mp hx with rfl | hx
      · assumption
      · exact ih (i + stride) x hx
    · simp at hx

/-- C2: in strided sampling mode, for every universe size `n ≥ 1`, window
`w ≥ 1` and offset `o`, the scan selects the indices
`start, start + stride, start + 2·stride, …` with `stride = max 1 (n / w)` and
`start = o % n`, takes at most `w` of them, and every selected index is a
valid universe index (`< n`). -/
theorem strided_sampling_correct (n w o : Nat) (hn : 1 ≤ n) (hw : 1 ≤ w) :
    (stridedIndices n w o).length ≤ w ∧
    (∀ k, k < (stridedIndices n w o).length →
      (stridedIndices n w o).get? k = some (o % n + k * max 1 (n / w))) ∧
    ∀ x ∈ stridedIndices n w o, x < n := by
  have _ := hw
  have he : stridedIndices n w o = apTake n (max 1 (n / w)) w (o % n) := by
    rw [stridedIndices_eq, Nat.max_eq_right hn]
  refine ⟨?_, ?_, ?_⟩
  · rw [he]; exact apTake_length_le n (max 1 (n / w)) w (o % n)
  · intro k hk
    rw [he] at hk ⊢
    exact apTake_get? n (max 1 (n / w)) w (o % n) k hk
  · rw [he]; exact apTake_mem_lt n (max 1 (n / w)) w (o % n)

/-- Witness for C2 at the claim's example: `n = 5`, `w = 2`, `o = 0` gives
stride `2` and sampled indices `[0, 2]`. -/
theorem strided_sampling_correct_witness :
    (1 ≤ 5 ∧ 1 ≤ 2) ∧
    ((stridedIndices 5 2 0).length ≤ 2 ∧
      (∀ k, k < (stridedIndices 5 2 0).length →
        (stridedIndices 5 2 0).get? k = some (0 % 5 + k * max 1 (5 / 2))) ∧
      ∀ x ∈ stridedIndices 5 2 0, x < 5) ∧
    stridedIndices 5 2 0 = [0, 2] :=
  ⟨⟨by decide, by decide⟩, strided_sampling_correct 5 2 0 (by decide) (by decide),
    by rw [stridedIndices_eq]; decide⟩

/-! ### C3: batch splitting and merged keys -/

theorem batches_nil (b : Nat) : batches ([] : List α) b = [] := by
  simp [batches]

theorem batches_cons (x : α) (xs : List α) (b : Nat) :
    batches (x :: xs) (b + 1)
      = (x :: xs).take (b + 1) :: batches ((x :: xs).drop (b + 1)) (b + 1) := by
  rw [batches]

theorem batches_spec (b : Nat) (hb : 1 ≤ b) :
    ∀ (f : Nat) (ids : List α), ids.length ≤ f →
      (∀ c ∈ batches ids b, c.length ≤ b) ∧
      (batches ids b).join = ids ∧
      (batches ids b).length = (ids.length + b - 1) / b := by
  intro f
  induction f with
  | zero =>
    intro ids hlen
    have : ids = [] := List.length_eq_zero.mp (Nat.le_zero.mp hlen)
    subst this
    refine ⟨by simp [batches_nil], by simp [batches_nil], ?_⟩
    rw [batches_nil]
    have : (0 + b - 1) / b = 0 := Nat.div_eq_of_lt (by omega)
    simpa using this.symm
  | succ f ih =>
    intro ids hlen
    match ids with
    | [] =>
      refine ⟨by simp [batches_nil], by simp [batches_nil], ?_⟩
      rw [batches_nil]
      have : (0 + b - 1) / b = 0 := Nat.div_eq_of_lt (by omega)
      simpa using this.symm
    | x :: xs =>
      obtain ⟨b', rfl⟩ : ∃ b', b = b' + 1 := ⟨b - 1, by omega⟩
      have hdl : ((x :: xs).drop (b' + 1)).length ≤ f := by
        simp only [List.length_drop, List.length_cons]
        simp only [List.length_cons] at hlen
        omega
      obtain ⟨ih1, ih2, ih3⟩ := ih ((x :: xs).drop (b' + 1)) hdl
      rw [batches_cons]
      refine ⟨?_, ?_, ?_⟩
      · intro c hc
        rcases List.mem_cons.mp hc with rfl | hc
        · simpa using Nat.min_le_left _ _
        · exact ih1 c hc
      · simp only [List.join_cons, ih2, List.take_append_drop]
      · simp only [List.length_cons, ih3, List.length_drop]
        have hna : xs.length + 1 + (b' + 1) - 1 = xs.length + (b' + 1) := by omega
        rw [hna, Nat.add_div_right _ (Nat.succ_pos b')]
        by_cases hcase : b' + 1 ≤ xs.length + 1
        · rw [show xs.length + 1 - (b' + 1) + (b' + 1) - 1 = xs.length by omega]
        · rw [show xs.length + 1 - (b' + 1) + (b' + 1) - 1 = b' by omega,
            Nat.div_eq_of_lt (by omega), Nat.div_eq_of_lt (by omega)]

theorem keys_dictUpdate_subset (m upd : List (Nat × Quote)) :
    keys (dictUpdate m upd) ⊆ keys m ++ keys upd := by
  intro x hx
  simp only [keys, dictUpdate, List.map_append, List.mem_append, List.mem_map] at hx ⊢
  rcases hx with ⟨p, hp, hpx⟩ | h
  · exact Or.inl ⟨p, (List.mem_filter.mp hp).1, hpx⟩
  · exact Or.inr h

theorem fetchLoop_ok (up : List Nat → BatchResponse) (S : List Nat) :
    ∀ (cs : List (List Nat)) (acc : List (Nat × Quote)),
      (∀ c ∈ cs, (up c).status = 200) →
      (∀ c ∈ cs, keys (up c).data ⊆ S) →
      keys acc ⊆ S →
      ∃ m, fetchLoop up cs acc = (.ok m, cs.length) ∧ keys m ⊆ S := by
  intro cs
  induction cs with
  | nil => intro acc _ _ hacc; exact ⟨acc, rfl, hacc⟩
  | cons c cs ih =>
    intro acc h200 hsub hacc
    have hresp : handleQuoteResponse (up c) = .ok (up c).data := by
      unfold handleQuoteResponse
      rw [h200 c (List.mem_cons_self c cs)]
      simp
    have hupd : keys (dictUpdate acc (up c).data) ⊆ S := by
      intro x hx
      rcases List.mem_append.mp (keys_dictUpdate_subset acc (up c).data hx) with h | h
      · exact hacc h
      · exact hsub c (List.mem_cons_self c cs) h
    obtain ⟨m, hm, hms⟩ := ih (dictUpdate acc (up c).data)
      (fun d hd => h200 d (List.mem_cons_of_mem c hd))
      (fun d hd => hsub d (List.mem_cons_of_mem c hd)) hupd
    refine ⟨m, ?_, hms⟩
    simp only [fetchLoop, hresp, hm, List.length_cons]

/-- C3: the quote fetch splits the security ids into consecutive batches of at
most `b`, issues exactly `⌈len / b⌉ = (len + b - 1) / b` upstream batch
requests (when the upstream answers 200), and — provided each upstream batch
response is keyed by ids of that batch, per the quote API interface — the
merged result map's key set is a subset of the requested ids. -/
theorem fetchQuotes_batching (up : List Nat → BatchResponse) (ids : List Nat) (b : Nat)
    (hb : 1 ≤ b)
    (h200 : ∀ c, (up c).status = 200)
    (hkeys : ∀ c, keys (up c).data ⊆ c) :
    (∀ c ∈ batches ids b, c.length ≤ b) ∧
    (batches ids b).join = ids ∧
    (fetchQuotes up ids b).2 = (ids.length + b - 1) / b ∧
    ∃ m, (fetchQuotes up ids b).1 = .ok m ∧ keys m ⊆ ids := by
  obtain ⟨hchunk, hjoin, hcount⟩ := batches_spec b hb ids.length ids le_rfl
  have hsub : ∀ c ∈ batches ids b, keys (up c).data ⊆ ids := by
    intro c hc x hx
    rw [← hjoin]
    exact List.mem_join.mpr ⟨c, hc, hkeys c hx⟩
  obtain ⟨m, hm, hms⟩ := fetchLoop_ok up ids (batches ids b) []
    (fun c _ => h200 c) hsub (by simp [keys])
  refine ⟨hchunk, hjoin, ?_, m, ?_, hms⟩
  · rw [show fetchQuotes up ids b = fetchLoop up (batches ids b) [] from rfl, hm, hcount]
  · rw [show fetchQuotes up ids b = fetchLoop up (batches ids b) [] from rfl, hm]

/-- Witness for C3 at the claim's example: 250 ids at batch size 100 issue
exactly 3 upstream batch requests. -/
theorem fetchQuotes_batching_witness :
    (1 ≤ 100) ∧
    ((∀ c ∈ batches (List.range 250) 100, c.length ≤ 100) ∧
      (batches (List.range 250) 100).join = List.range 250 ∧
      (fetchQuotes upW (List.range 250) 100).2 = ((List.range 250).length + 100 - 1) / 100 ∧
      ∃ m, (fetchQuotes upW (List.range 250) 100).1 = .ok m ∧ keys m ⊆ List.range 250) ∧
    ((List.range 250).length + 100 - 1) / 100 = 3 :=
  ⟨by decide,
    fetchQuotes_batching upW (List.range 250) 100 (by decide) (fun c => rfl)
      (fun c x hx => by simpa [upW, keys, List.map_map, Function.comp] using hx),
    by simp [List.length_range]⟩

/-! ### C4: upstream status mapping and absence of retries -/

/-- C4: an upstream HTTP 429 makes the quote fetch fail with the rate-limit
exception carrying the suggested retry delay; any other non-2xx status makes
it fail with the 502 upstream-error exception; and the gateway never retries —
across a whole batched fetch, at most one request is issued per batch even
when a batch fails. -/
theorem quote_error_mapping (r1 r2 : BatchResponse)
    (h1 : r1.status = 429)
    (h2 : r2.status ≠ 429) (h3 : ¬ (200 ≤ r2.status ∧ r2.status < 300)) :
    handleQuoteResponse r1
      = .error ⟨429, "Dhan rate limit (429). Retry after ~20–30 seconds."⟩ ∧
    handleQuoteResponse r2
      = .error ⟨502, "Dhan quote API failed (" ++ toString r2.status ++ ")"⟩ ∧
    ∀ (up : List Nat → BatchResponse) (cs : List (List Nat)) (acc : List (Nat × Quote)),
      (fetchLoop up cs acc).2 ≤ cs.length := by
  refine ⟨?_, ?_, ?_⟩
  · unfold handleQuoteResponse
    rw [h1]
    simp
  · have h200 : r2.status ≠ 200 := by omega
    unfold handleQuoteResponse
    rw [if_neg h2, if_neg h200]
  · intro up cs
    induction cs with
    | nil => intro acc; simp [fetchLoop]
    | cons c cs ih =>
      intro acc
      simp only [fetchLoop]
      cases handleQuoteResponse (up c) with
      | error e => simp
      | ok d =>
        simp only [List.length_cons]
        exact Nat.succ_le_succ (ih (dictUpdate acc d))

/-- Witness for C4: statuses 429 and 503. -/
theorem quote_error_mapping_witness :
    ((⟨429, []⟩ : BatchResponse).status = 429 ∧ (⟨503, []⟩ : BatchResponse).status ≠ 429 ∧
      ¬ (200 ≤ (⟨503, []⟩ : BatchResponse).status ∧ (⟨503, []⟩ : BatchResponse).status < 300)) ∧
    (handleQuoteResponse ⟨429, []⟩
        = .error ⟨429, "Dhan rate limit (429). Retry after ~20–30 seconds."⟩ ∧
      handleQuoteResponse ⟨503, []⟩
        = .error ⟨502, "Dhan quote API failed (" ++ toString (⟨503, []⟩ : BatchResponse).status ++ ")"⟩ ∧
      ∀ (up : List Nat → BatchResponse) (cs : List (List Nat)) (acc : List (Nat × Quote)),
        (fetchLoop up cs acc).2 ≤ cs.length) :=
  ⟨⟨by decide, by decide, by decide⟩,
    quote_error_mapping ⟨429, []⟩ ⟨503, []⟩ rfl (by decide) (by decide)⟩

/-! ### C1: the classification reference price -/

/-- C1 (amended): for every mode string and every quoted entry with a truthy
last price and day open, the scan computes
`pctChange = (lastPrice - dayOpen) / dayOpen * 100` — the reference price is
always the day's opening price, never the previous close, whatever the mode;
and the claim's example quote (lastPrice 105, open 100) yields
`pctChange = 5` with bias `BULLISH` and confidence 80 in the non-btst
(morning) branch, whose bullish threshold is 1.2, not 1.5. -/
theorem scan_pct_vs_open (mode sym : String) (q : Quote) (ltp opn : ℚ)
    (hltp : q.last_price = some ltp) (h0 : ltp ≠ 0)
    (hopn : q.opn = some opn) (ho0 : opn ≠ 0) :
    (∃ r, scanEntry mode sym q = some r ∧ r.pct_vs_open = (ltp - opn) / opn * 100) ∧
    scanEntry "morning" "X" qC1 = some ⟨"X", "BULLISH", 80, 105, 5, 1/2, 0, "N/A"⟩ := by
  constructor
  · unfold scanEntry
    rw [hltp]
    simp only [qval, hopn, Option.getD_some, if_neg h0, if_neg ho0]
    exact ⟨_, rfl, rfl⟩
  · have h : pyLower "morning" ≠ "btst" := by decide
    simp only [scanEntry, qC1, qval]
    norm_num [h]

/-- Witness for C1's amended theorem at the example quote in btst mode. -/
theorem scan_pct_vs_open_witness :
    (qC1.last_price = some 105 ∧ (105 : ℚ) ≠ 0 ∧ qC1.opn = some 100 ∧ (100 : ℚ) ≠ 0) ∧
    (∃ r, scanEntry "btst" "X" qC1 = some r ∧ r.pct_vs_open = (105 - 100) / 100 * 100) ∧
    scanEntry "morning" "X" qC1 = some ⟨"X", "BULLISH", 80, 105, 5, 1/2, 0, "N/A"⟩ :=
  ⟨⟨rfl, by norm_num, rfl, by norm_num⟩,
    scan_pct_vs_open "btst" "X" qC1 105 100 rfl (by norm_num) rfl (by norm_num)⟩

/-- C1 counterexample: the claim's `mode=previous-close` example.  On the
quote with lastPrice 105, day open 100 and previous close 50, the code
computes `pctChange = 5` (relative to the open) for the mode string
"previous-close" as for every other mode, while the claimed mode-dependent
reference price would give `(105 - 50) / 50 * 100 = 110`: no mode selects the
previous close as reference price. -/
theorem scan_pct_mode_counterexample :
    (scanEntry "previous-close" "X" qC1).map ScanResult.pct_vs_open = some 5 ∧
    qC1.close = some 50 ∧
    pctChangeSpec "previous-close" 105 50 100 = 110 ∧
    (5 : ℚ) ≠ 110 := by
  refine ⟨?_, rfl, ?_, by norm_num⟩
  · have h : pyLower "previous-close" ≠ "btst" := by decide
    simp only [scanEntry, qC1, qval]
    norm_num [h]
  · norm_num [pctChangeSpec]

/-! ### C5 and C6: the scan cache -/

/-- C5 (amended): for every parameter set with no cache entry, a first,
successful scan stores its response under the derived key; a second call with
identical parameters within the TTL returns the byte-identical response
(`serveCached` re-slices `top_results` to the same `limit`, a no-op on the
stored truncation) and issues zero upstream requests; and once the entry's age
reaches the TTL it is never served — the call falls through to the body.
(When the first call fails, the retry is served the cached error body as a
success-shaped response instead of the identical failure: see the C6
theorems.) -/
theorem scan_cache_idempotent (p : ScanParams) (cache : ScanCache) (t0 t1 t2 : ℚ)
    (ts : String) (results : List ScanResult) (body2 body3 : ScanBody) (n1 n2 n3 : Nat)
    (hmiss : cache (cacheKey p) = none)
    (hfresh : t1 - t0 < SCAN_CACHE_TTL)
    (hexp : SCAN_CACHE_TTL ≤ t2 - t0) :
    (scan_all_cached cache t0 p (.success ts results) n1).1
      = .ok ⟨"success", none, ts, some (results.take p.limit)⟩ ∧
    ((scan_all_cached cache t0 p (.success ts results) n1).2.1) (cacheKey p)
      = some ⟨t0, ⟨"success", none, ts, some (results.take p.limit)⟩⟩ ∧
    scan_all_cached ((scan_all_cached cache t0 p (.success ts results) n1).2.1) t1 p body2 n2
      = ((scan_all_cached cache t0 p (.success ts results) n1).1,
          (scan_all_cached cache t0 p (.success ts results) n1).2.1, 0) ∧
    scan_all_cached ((scan_all_cached cache t0 p (.success ts results) n1).2.1) t2 p body3 n3
      = scanRunBody ((scan_all_cached cache t0 p (.success ts results) n1).2.1) t2 p body3 n3 := by
  have h1 : scan_all_cached cache t0 p (.success ts results) n1
      = (.ok ⟨"success", none, ts, some (results.take p.limit)⟩,
          cacheInsert cache (cacheKey p) ⟨t0, ⟨"success", none, ts, some (results.take p.limit)⟩⟩,
          n1) := by
    unfold scan_all_cached
    rw [hmiss]
    rfl
  have hhit : (cacheInsert cache (cacheKey p)
        ⟨t0, ⟨"success", none, ts, some (results.take p.limit)⟩⟩) (cacheKey p)
      = some ⟨t0, ⟨"success", none, ts, some (results.take p.limit)⟩⟩ := by
    simp [cacheInsert]
  have h3 : (scan_all_cached cache t0 p (.success ts results) n1).1
      = .ok ⟨"success", none, ts, some (results.take p.limit)⟩ := by rw [h1]
  have h2 : (scan_all_cached cache t0 p (.success ts results) n1).2.1
      = cacheInsert cache (cacheKey p)
          ⟨t0, ⟨"success", none, ts, some (results.take p.limit)⟩⟩ := by rw [h1]
  have hserved : scan_all_cached (cacheInsert cache (cacheKey p)
        ⟨t0, ⟨"success", none, ts, some (results.take p.limit)⟩⟩) t1 p body2 n2
      = (.ok ⟨"success", none, ts, some (results.take p.limit)⟩,
          cacheInsert cache (cacheKey p)
            ⟨t0, ⟨"success", none, ts, some (results.take p.limit)⟩⟩, 0) := by
    unfold scan_all_cached
    rw [hhit]
    dsimp only
    rw [if_pos hfresh]
    simp [serveCached, List.take_take]
  have hexpired : scan_all_cached (cacheInsert cache (cacheKey p)
        ⟨t0, ⟨"success", none, ts, some (results.take p.limit)⟩⟩) t2 p body3 n3
      = scanRunBody (cacheInsert cache (cacheKey p)
          ⟨t0, ⟨"success", none, ts, some (results.take p.limit)⟩⟩) t2 p body3 n3 := by
    unfold scan_all_cached
    rw [hhit]
    dsimp only
    rw [if_neg (not_lt.mpr hexp)]
  refine ⟨h3, (congrArg (fun f => f (cacheKey p)) h2).trans hhit, ?_, ?_⟩
  · calc scan_all_cached ((scan_all_cached cache t0 p (.success ts results) n1).2.1) t1 p body2 n2
        = scan_all_cached (cacheInsert cache (cacheKey p)
            ⟨t0, ⟨"success", none, ts, some (results.take p.limit)⟩⟩) t1 p body2 n2 := by rw [h2]
      _ = (.ok ⟨"success", none, ts, some (results.take p.limit)⟩,
            cacheInsert cache (cacheKey p)
              ⟨t0, ⟨"success", none, ts, some (results.take p.limit)⟩⟩, 0) := hserved
      _ = ((scan_all_cached cache t0 p (.success ts results) n1).1,
            (scan_all_cached cache t0 p (.success ts results) n1).2.1, 0) := by rw [h2, h3]
  · calc scan_all_cached ((scan_all_cached cache t0 p (.success ts results) n1).2.1) t2 p body3 n3
        = scan_all_cached (cacheInsert cache (cacheKey p)
            ⟨t0, ⟨"success", none, ts, some (results.take p.limit)⟩⟩) t2 p body3 n3 := by rw [h2]
      _ = scanRunBody (cacheInsert cache (cacheKey p)
            ⟨t0, ⟨"success", none, ts, some (results.take p.limit)⟩⟩) t2 p body3 n3 := hexpired
      _ = scanRunBody ((scan_all_cached cache t0 p (.success ts results) n1).2.1) t2 p body3 n3 := by
            rw [h2]

/-- Witness for C5: defaults-like parameters, first call at `t = 0`, fresh
retry at `t = 10`, expired retry at `t = 100`. -/
theorem scan_cache_idempotent_witness :
    ((fun _ => none : ScanCache) (cacheKey pC6) = none ∧
      (10 : ℚ) - 0 < SCAN_CACHE_TTL ∧ SCAN_CACHE_TTL ≤ (100 : ℚ) - 0) ∧
    ((scan_all_cached (fun _ => none) 0 pC6 (.success "T0" []) 2).1
        = .ok ⟨"success", none, "T0", some (List.take pC6.limit [])⟩ ∧
      ((scan_all_cached (fun _ => none) 0 pC6 (.success "T0" []) 2).2.1) (cacheKey pC6)
        = some ⟨0, ⟨"success", none, "T0", some (List.take pC6.limit [])⟩⟩ ∧
      scan_all_cached ((scan_all_cached (fun _ => none) 0 pC6 (.success "T0" []) 2).2.1)
          10 pC6 (.success "T10" []) 2
        = ((scan_all_cached (fun _ => none) 0 pC6 (.success "T0" []) 2).1,
            (scan_all_cached (fun _ => none) 0 pC6 (.success "T0" []) 2).2.1, 0) ∧
      scan_all_cached ((scan_all_cached (fun _ => none) 0 pC6 (.success "T0" []) 2).2.1)
          100 pC6 (.success "T100" []) 2
        = scanRunBody ((scan_all_cached (fun _ => none) 0 pC6 (.success "T0" []) 2).2.1)
            100 pC6 (.success "T100" []) 2) :=
  ⟨⟨rfl, by norm_num [SCAN_CACHE_TTL], by norm_num [SCAN_CACHE_TTL]⟩,
    scan_cache_idempotent pC6 (fun _ => none) 0 10 100 "T0" [] (.success "T10" [])
      (.success "T100" []) 2 2 2 rfl (by norm_num [SCAN_CACHE_TTL])
      (by norm_num [SCAN_CACHE_TTL])⟩

/-- C5 counterexample: the claim quantifies over all parameter sets and calls,
but when the first call fails, the two calls are not byte-identical: the first
call raises the 502 `HTTPException` while the retry 5 seconds later returns
the cached error body as an ordinary (`.ok`) response. -/
theorem scan_cache_idempotent_counterexample :
    (scan_all_cached (fun _ => none) 0 pC5 (.httpError heC5 "T0") 1).1 = .error heC5 ∧
    (scan_all_cached ((scan_all_cached (fun _ => none) 0 pC5 (.httpError heC5 "T0") 1).2.1)
        5 pC5 (.httpError heC5 "T5") 1).1
      = .ok ⟨"error", some heC5.detail, "T0", some []⟩ ∧
    (Except.ok ⟨"error", some heC5.detail, "T0", some []⟩ : Except HttpException ScanResp)
      ≠ .error heC5 := by
  refine ⟨rfl, ?_, by simp⟩
  show (scan_all_cached (cacheInsert (fun _ => none) (cacheKey pC5)
      ⟨0, ⟨"error", some heC5.detail, "T0", none⟩⟩) 5 pC5 (.httpError heC5 "T5") 1).1
    = .ok ⟨"error", some heC5.detail, "T0", some []⟩
  unfold scan_all_cached
  rw [show (cacheInsert (fun _ => none) (cacheKey pC5)
        ⟨0, ⟨"error", some heC5.detail, "T0", none⟩⟩) (cacheKey pC5)
      = some ⟨0, ⟨"error", some heC5.detail, "T0", none⟩⟩ by simp [cacheInsert]]
  dsimp only
  rw [if_pos (show (5 : ℚ) - 0 < SCAN_CACHE_TTL by norm_num [SCAN_CACHE_TTL])]
  simp [serveCached]

/-- C6 (amended): every `HTTPException` failure outcome of a scan — including
the 429 rate limit — is stored in the scan cache under the same key derivation
and the same TTL as successes, and a retry with identical parameters within
the TTL issues zero upstream requests; but the retry receives the cached error
body as a success-shaped response with an empty `top_results` list spliced in,
not the original failure. -/
theorem scan_cache_failure_cached (p : ScanParams) (cache : ScanCache) (t0 t1 : ℚ)
    (he : HttpException) (ts : String) (body2 : ScanBody) (n1 n2 : Nat)
    (hmiss : cache (cacheKey p) = none)
    (hfresh : t1 - t0 < SCAN_CACHE_TTL) :
    scan_all_cached cache t0 p (.httpError he ts) n1
      = (.error he,
          cacheInsert cache (cacheKey p) ⟨t0, ⟨"error", some he.detail, ts, none⟩⟩, n1) ∧
    ((scan_all_cached cache t0 p (.httpError he ts) n1).2.1) (cacheKey p)
      = some ⟨t0, ⟨"error", some he.detail, ts, none⟩⟩ ∧
    scan_all_cached ((scan_all_cached cache t0 p (.httpError he ts) n1).2.1) t1 p body2 n2
      = (.ok ⟨"error", some he.detail, ts, some []⟩,
          (scan_all_cached cache t0 p (.httpError he ts) n1).2.1, 0) := by
  have h1 : scan_all_cached cache t0 p (.httpError he ts) n1
      = (.error he,
          cacheInsert cache (cacheKey p) ⟨t0, ⟨"error", some he.detail, ts, none⟩⟩, n1) := by
    unfold scan_all_cached
    rw [hmiss]
    rfl
  have hhit : (cacheInsert cache (cacheKey p) ⟨t0, ⟨"error", some he.detail, ts, none⟩⟩)
        (cacheKey p)
      = some ⟨t0, ⟨"error", some he.detail, ts, none⟩⟩ := by
    simp [cacheInsert]
  have h2 : (scan_all_cached cache t0 p (.httpError he ts) n1).2.1
      = cacheInsert cache (cacheKey p) ⟨t0, ⟨"error", some he.detail, ts, none⟩⟩ := by rw [h1]
  have hserved : scan_all_cached (cacheInsert cache (cacheKey p)
        ⟨t0, ⟨"error", some he.detail, ts, none⟩⟩) t1 p body2 n2
      = (.ok ⟨"error", some he.detail, ts, some []⟩,
          cacheInsert cache (cacheKey p) ⟨t0, ⟨"error", some he.detail, ts, none⟩⟩, 0) := by
    unfold scan_all_cached
    rw [hhit]
    dsimp only
    rw [if_pos hfresh]
    simp [serveCached]
  refine ⟨h1, (congrArg (fun f => f (cacheKey p)) h2).trans hhit, ?_⟩
  calc scan_all_cached ((scan_all_cached cache t0 p (.httpError he ts) n1).2.1) t1 p body2 n2
      = scan_all_cached (cacheInsert cache (cacheKey p)
          ⟨t0, ⟨"error", some he.detail, ts, none⟩⟩) t1 p body2 n2 := by rw [h2]
    _ = (.ok ⟨"error", some he.detail, ts, some []⟩,
          cacheInsert cache (cacheKey p) ⟨t0, ⟨"error", some he.detail, ts, none⟩⟩, 0) := hserved
    _ = (.ok ⟨"error", some he.detail, ts, some []⟩,
          (scan_all_cached cache t0 p (.httpError he ts) n1).2.1, 0) := by rw [h2]

/-- Witness for C6: a 429 rate-limit failure at `t = 0`, retried at `t = 10`. -/
theorem scan_cache_failure_cached_witness :
    ((fun _ => none : ScanCache) (cacheKey pC5) = none ∧ (10 : ℚ) - 0 < SCAN_CACHE_TTL) ∧
    (scan_all_cached (fun _ => none) 0 pC5 (.httpError heC6 "T0") 1
        = (.error heC6,
            cacheInsert (fun _ => none) (cacheKey pC5) ⟨0, ⟨"error", some heC6.detail, "T0", none⟩⟩, 1) ∧
      ((scan_all_cached (fun _ => none) 0 pC5 (.httpError heC6 "T0") 1).2.1) (cacheKey pC5)
        = some ⟨0, ⟨"error", some heC6.detail, "T0", none⟩⟩ ∧
      scan_all_cached ((scan_all_cached (fun _ => none) 0 pC5 (.httpError heC6 "T0") 1).2.1)
          10 pC5 (.success "T10" []) 3
        = (.ok ⟨"error", some heC6.detail, "T0", some []⟩,
            (scan_all_cached (fun _ => none) 0 pC5 (.httpError heC6 "T0") 1).2.1, 0)) :=
  ⟨⟨rfl, by norm_num [SCAN_CACHE_TTL]⟩,
    scan_cache_failure_cached pC5 (fun _ => none) 0 10 heC6 "T0" (.success "T10" []) 1 3
      rfl (by norm_num [SCAN_CACHE_TTL])⟩

/-- C6 counterexample: after a cached 429 failure under the default
parameters, the retry within the TTL does not receive the same failure
response — it receives no failure at all, but a success-shaped body. -/
theorem scan_cache_failure_counterexample :
    (scan_all_cached (fun _ => none) 0 pC6 (.httpError heC6 "T0") 1).1 = .error heC6 ∧
    (scan_all_cached ((scan_all_cached (fun _ => none) 0 pC6 (.httpError heC6 "T0") 1).2.1)
        10 pC6 (.success "T10" []) 0).1
      = .ok ⟨"error", some heC6.detail, "T0", some []⟩ ∧
    ∀ e : HttpException,
      (Except.ok ⟨"error", some heC6.detail, "T0", some []⟩ : Except HttpException ScanResp)
        ≠ .error e := by
  refine ⟨rfl, ?_, fun e => by simp⟩
  show (scan_all_cached (cacheInsert (fun _ => none) (cacheKey pC6)
      ⟨0, ⟨"error", some heC6.detail, "T0", none⟩⟩) 10 pC6 (.success "T10" []) 0).1
    = .ok ⟨"error", some heC6.detail, "T0", some []⟩
  unfold scan_all_cached
  rw [show (cacheInsert (fun _ => none) (cacheKey pC6)
        ⟨0, ⟨"error", some heC6.detail, "T0", none⟩⟩) (cacheKey pC6)
      = some ⟨0, ⟨"error", some heC6.detail, "T0", none⟩⟩ by simp [cacheInsert]]
  dsimp only
  rw [if_pos (show (10 : ℚ) - 0 < SCAN_CACHE_TTL by norm_num [SCAN_CACHE_TTL])]
  simp [serveCached]

/-! ### C7: token fallback policy -/

/-- C7: `get_token` fails — with the `RuntimeError("No valid Dhan access
token!")` that models `AuthError` — exactly when no access token is held
(never obtained: the token is only ever set, never cleared) and the fresh
refresh attempt also fails; and whenever the refresh fails while a previously
obtained token exists, `get_token` returns that last known token with the
state unchanged instead of failing the caller. -/
theorem get_token_error_iff (st : AuthState) (now : ℚ) (r : RefreshOutcome)
    (st2 : AuthState) (now2 : ℚ)
    (htok : tokenTruthy st2.access_token = true) :
    (get_token st now r = .error "No valid Dhan access token!"
      ↔ tokenTruthy st.access_token = false ∧ r = .fail) ∧
    get_token st2 now2 .fail = .ok (st2.access_token, st2) := by
  constructor
  · cases r with
    | ok tok ttl =>
      unfold get_token refresh_token
      split
      · simp
      · simp
    | fail =>
      unfold get_token refresh_token
      by_cases ht : tokenTruthy st.access_token = true
      · by_cases hexp : now < st.expires_at
        · rw [if_pos ⟨ht, hexp⟩]
          simp [ht]
        · rw [if_neg (fun hc => hexp hc.2), if_pos ht]
          simp [ht]
      · have ht' : tokenTruthy st.access_token = false := by
          simpa using ht
        rw [if_neg (fun hc => ht hc.1), if_neg (by simpa using ht)]
        simp [ht']
  · unfold get_token refresh_token
    by_cases hexp2 : now2 < st2.expires_at
    · rw [if_pos ⟨htok, hexp2⟩]
    · rw [if_neg (fun hc => hexp2 hc.2), if_pos htok]

/-- Witness for C7: a never-authenticated state whose refresh fails errors; a
state holding the token "tok" survives a failed refresh past expiry. -/
theorem get_token_error_iff_witness :
    tokenTruthy (⟨some "tok", 0⟩ : AuthState).access_token = true ∧
    ((get_token ⟨none, 0⟩ 1 .fail = .error "No valid Dhan access token!"
        ↔ tokenTruthy (⟨none, 0⟩ : AuthState).access_token = false ∧
          (RefreshOutcome.fail = RefreshOutcome.fail)) ∧
      get_token ⟨some "tok", 0⟩ 5 .fail
        = .ok ((⟨some "tok", 0⟩ : AuthState).access_token, ⟨some "tok", 0⟩)) :=
  ⟨by decide, get_token_error_iff ⟨none, 0⟩ 1 .fail ⟨some "tok", 0⟩ 5 (by decide)⟩

/-! ### C9: universe builder invariants -/

theorem buildLoop_eq_dedup (rows : List MasterRow) :
    ∀ seen, buildLoop rows seen = dedupFirst (rows.filterMap rowEntry) seen := by
  induction rows with
  | nil => intro seen; rfl
  | cons r rs ih =>
    intro seen
    simp only [buildLoop, List.filterMap_cons]
    cases h : rowEntry r with
    | none => exact ih seen
    | some e =>
      simp only [dedupFirst]
      split
      · exact ih seen
      · rw [ih ((e.security_id, e.symbol_name) :: seen)]

theorem dedupFirst_sublist :
    ∀ (l : List UniverseEntry) (seen : List (Int × String)), (dedupFirst l seen).Sublist l := by
  intro l
  induction l with
  | nil => intro seen; simp [dedupFirst]
  | cons e es ih =>
    intro seen
    rw [dedupFirst]
    split
    · exact (ih seen).trans (List.sublist_cons_self e es)
    · exact List.Sublist.cons₂ e (ih _)

theorem dedupFirst_keys_nodup :
    ∀ (l : List UniverseEntry) (seen : List (Int × String)),
      (∀ e ∈ dedupFirst l seen, (e.security_id, e.symbol_name) ∉ seen) ∧
      ((dedupFirst l seen).map (fun e => (e.security_id, e.symbol_name))).Nodup := by
  intro l
  induction l with
  | nil => intro seen; simp [dedupFirst]
  | cons e es ih =>
    intro seen
    rw [dedupFirst]
    split
    · exact ih seen
    · next hnot =>
      constructor
      · intro x hx
        rcases List.mem_cons.mp hx with rfl | hx
        · exact hnot
        · intro hmem
          exact ((ih _).1 x hx) (List.mem_cons_of_mem _ hmem)
      · simp only [List.map_cons, List.nodup_cons]
        refine ⟨?_, (ih _).2⟩
        intro hmem
        obtain ⟨x, hx, hkey⟩ := List.mem_map.mp hmem
        exact ((ih _).1 x hx) (hkey ▸ List.mem_cons_self _ _)

theorem rowEntry_filters (r : MasterRow) (e : UniverseEntry) (h : rowEntry r = some e) :
    pyUpper (pyStrip r.EXCH_ID) = "NSE" ∧ pyUpper (pyStrip r.SEGMENT) = "E" ∧
    pyUpper (pyStrip r.SERIES) = "EQ" := by
  by_cases hc : pyUpper (pyStrip r.EXCH_ID) = "NSE" ∧ pyUpper (pyStrip r.SEGMENT) = "E" ∧
      pyUpper (pyStrip r.SERIES) = "EQ"
  · exact hc
  · exfalso
    unfold rowEntry at h
    rw [if_neg hc] at h
    exact Option.noConfusion h

/-- C9 (amended): for every list of master rows, `build_nse_eq_universe`
returns a list with no two entries sharing a `(security_id, symbol_name)`
pair, every entry derived from a row passing the `NSE`/`E`/`EQ` filter, and
the entries in first-seen row order (the result is the first-occurrence
de-duplication of the qualifying rows, hence a sublist of them).  The
standalone `scripts/build_universe.py`, by contrast, de-duplicates by the raw
id string and can emit duplicate pairs: see the counterexample. -/
theorem build_universe_invariants (rows : List MasterRow) :
    ((build_nse_eq_universe rows).map (fun e => (e.security_id, e.symbol_name))).Nodup ∧
    (∀ e ∈ build_nse_eq_universe rows, ∃ r ∈ rows, rowEntry r = some e ∧
      pyUpper (pyStrip r.EXCH_ID) = "NSE" ∧ pyUpper (pyStrip r.SEGMENT) = "E" ∧
      pyUpper (pyStrip r.SERIES) = "EQ") ∧
    (build_nse_eq_universe rows).Sublist (rows.filterMap rowEntry) ∧
    build_nse_eq_universe rows = dedupFirst (rows.filterMap rowEntry) [] := by
  have hb : build_nse_eq_universe rows = dedupFirst (rows.filterMap rowEntry) [] :=
    buildLoop_eq_dedup rows []
  refine ⟨?_, ?_, ?_, hb⟩
  · rw [hb]
    exact (dedupFirst_keys_nodup _ _).2
  · intro e he
    rw [hb] at he
    have hl : e ∈ rows.filterMap rowEntry := (dedupFirst_sublist _ _).subset he
    obtain ⟨r, hr, hre⟩ := List.mem_filterMap.mp hl
    obtain ⟨h1, h2, h3⟩ := rowEntry_filters r e hre
    exact ⟨r, hr, hre, h1, h2, h3⟩
  · rw [hb]
    exact dedupFirst_sublist _ _

/-- C9 counterexample: on a dataset where the same instrument appears with
`SECURITY_ID` strings `"1"` and `"1.0"`, the build script (which
de-duplicates by the raw id string before `int(float(...))`) emits two
entries with the identical `(securityId, symbolName)` pair `(1, "AAA")`. -/
theorem build_universe_script_counterexample :
    buildScript [rowC9a, rowC9b]
      = some [⟨1, "AAA", "ADISP", "EQ"⟩, ⟨1, "AAA", "BDISP", "EQ"⟩] ∧
    ¬ (((buildScript [rowC9a, rowC9b]).getD []).map
        (fun e => (e.security_id, e.symbol))).Nodup := by
  constructor
  · decide
  · decide

/-! ### C10: the cached universe ignores the dataset TTL -/

/-- C10: whenever the derived universe cache is populated and `force_refresh`
is false, `build_nse_eq_universe` returns the cached list with the state
unchanged and zero downloads — for every clock value, in particular long after
the 6-hour dataset TTL has expired — and consequently any sequence of
scan-style calls (`force_refresh = false`) performs zero downloads and leaves
the cache untouched: the dataset is re-fetched only by a forced refresh or by
another operation that reloads the rows. -/
theorem universe_cache_short_circuit (st : MasterCache) (u : List UniverseEntry)
    (now : ℚ) (dl : FetchOutcome) (calls : List (ℚ × FetchOutcome))
    (hu : st.nse_eq_universe = some u) :
    build_universe_cached st false now dl = (.ok (u, st), 0) ∧
    scanSeq st calls = (st, 0) := by
  have h1 : ∀ (t : ℚ) (d : FetchOutcome), build_universe_cached st false t d = (.ok (u, st), 0) := by
    intro t d
    unfold build_universe_cached build_universe_core
    rw [if_neg (by simp)]
    rw [hu]
  refine ⟨h1 now dl, ?_⟩
  induction calls with
  | nil => rfl
  | cons c rest ih =>
    obtain ⟨t, d⟩ := c
    rw [scanSeq, h1 t d]
    simp [ih]

/-- Witness for C10: a populated universe cache served unchanged at clock
values 100000 and 2000000, both far past the 21600-second TTL, with zero
downloads across the calls. -/
theorem universe_cache_short_circuit_witness :
    stC10.nse_eq_universe = some [⟨1, "AAA", "ADISP"⟩] ∧
    (build_universe_cached stC10 false 100000 ⟨200, []⟩ = (.ok ([⟨1, "AAA", "ADISP"⟩], stC10), 0) ∧
      scanSeq stC10 [(100000, ⟨200, []⟩), (2000000, ⟨500, []⟩)] = (stC10, 0)) :=
  ⟨rfl, universe_cache_short_circuit stC10 [⟨1, "AAA", "ADISP"⟩] 100000 ⟨200, []⟩
    [(100000, ⟨200, []⟩), (2000000, ⟨500, []⟩)] rfl⟩

end DhanBridge
